import Mathlib

/-!
Verification of the taxed-token-launchpad client (src/app/src/components/ProgramControls.tsx
and src/tests/taxed-token-launchpad.ts) against its natural-language specification.

The client is a sequencer of on-chain operations.  We embed shallowly:
  * the byte-level instruction codec for the hand-built TransferCheckedWithFee payload,
  * the client's tracked state (selected mint, payer associated account, payer balance,
    mint amount, bounded log),
  * each action handler as a pure function from the state plus the environment's replies
    (account probe, transaction send, confirmation) to a result consisting of the new
    state, the list of produced effects (derivations, built instructions, network calls)
    and the outcome the handler reports.
External collaborators (RPC transport, wallet) are represented by explicit reply
parameters; addresses are abstract strings.
-/

namespace Launchpad

/-- Little-endian byte list of width `k` for a natural number: repeated `% 256` / `/ 256`.
Embeds the byte layout produced by Node's `buf.writeBigUInt64LE` for `k = 8`. -/
def leBytes : Nat → Nat → List Nat
  | 0, _ => []
  | k + 1, n => n % 256 :: leBytes k (n / 256)

/-- Embeds `u64ToBufferLE` (ProgramControls.tsx lines 263-267 and the same helper in the
test file): `Buffer.alloc(8); buf.writeBigUInt64LE(BigInt(n))`.  `writeBigUInt64LE`
throws a `RangeError` outside `[0, 2^64)`, modelled as `none`. -/
def u64ToBufferLE (n : Int) : Option (List Nat) :=
  if 0 ≤ n ∧ n < 2 ^ 64 then some (leBytes 8 n.toNat) else none

/-- Embeds the hand-built TransferCheckedWithFee payload (test file lines 246-251, and
ProgramControls.tsx lines 270-275 with `fee = 0`):
`Buffer.concat([Buffer.from([26, 1]), u64ToBufferLE(amount), Buffer.from([decimals]),
u64ToBufferLE(fee)])`.  `Buffer.from` truncates a byte to `% 256`. -/
def encodeTransferWithFee (amount : Int) (decimals : Nat) (fee : Int) : Option (List Nat) :=
  match u64ToBufferLE amount, u64ToBufferLE fee with
  | some a, some f => some ([26, 1] ++ a ++ [decimals % 256] ++ f)
  | _, _ => none

/-- Embeds the data buffer of the app's Transfer With Fee handler
(ProgramControls.tsx lines 268-275): `decimals = 6` and the trailing fee field is
the constant `u64ToBufferLE(0)`. -/
def appTransferData (amt : Int) : Option (List Nat) :=
  encodeTransferWithFee amt 6 0

/-- Embeds the test's fee computation (test file line 237):
`Math.ceil((transferAmount * transferFeeBps) / 10000)`, exact for the integer ranges
used there; in Nat, `ceil (a*b/10000) = (a*b + 9999) / 10000`. -/
def ceilFee (amount feeBps : Nat) : Nat :=
  (amount * feeBps + 9999) / 10000

/-- Modelled from the spec: the on-chain fee rule `fee = min(maximumFee,
ceil(amount*feeBps/10000))` (spec section 3 invariant); the receiving program's
fee computation is outside src/, only the `ceil` part appears in the test code. -/
def computedFee (amount feeBps maximumFee : Nat) : Nat :=
  min maximumFee (ceilFee amount feeBps)

/-- Modelled from the spec: destination net received amount `= amount - fee`
(spec section 3 invariant); settlement is performed by the on-chain program. -/
def netReceived (amount feeBps maximumFee : Nat) : Nat :=
  amount - computedFee amount feeBps maximumFee

/-- Decimals used by `createTaxedToken` (ProgramControls.tsx line 45). -/
def taxedTokenDecimals : Nat := 6

/-- Transfer fee in basis points used by `createTaxedToken` (ProgramControls.tsx line 46). -/
def taxedTokenFeeBps : Nat := 100

/-- Maximum fee used by `createTaxedToken` (ProgramControls.tsx line 47). -/
def taxedTokenMaximumFee : Nat := 1000000

/-- Default value of the mint amount field (ProgramControls.tsx line 26). -/
def defaultMintAmount : Nat := 1000000

theorem leBytes_length (k : Nat) : ∀ n, (leBytes k n).length = k := by
  induction k with
  | zero => intro n; rfl
  | succ k ih => intro n; simp [leBytes, ih]

theorem encodeTransferWithFee_eq (amount fee : Int) (decimals : Nat)
    (ha0 : 0 ≤ amount) (ha : amount < 2 ^ 64) (hf0 : 0 ≤ fee) (hf : fee < 2 ^ 64) :
    encodeTransferWithFee amount decimals fee =
      some ([26, 1] ++ leBytes 8 amount.toNat ++ [decimals % 256] ++ leBytes 8 fee.toNat) := by
  rw [encodeTransferWithFee, u64ToBufferLE, u64ToBufferLE, if_pos ⟨ha0, ha⟩, if_pos ⟨hf0, hf⟩]

/-- Result of the JavaScript `Number(...)` conversion applied to the transfer amount
field: either `NaN` (unparsable) or a numeric value, kept as an exact integer. -/
inductive JsNum where
  | nan : JsNum
  | val : Int → JsNum
  deriving DecidableEq

/-- The client's tracked state (ProgramControls.tsx lines 22-26): wallet public key,
selected mint, payer associated token account, its last-observed balance, the mint
amount field, and the bounded log.  Addresses are abstract strings. -/
structure ClientState where
  walletKey : Option String
  selectedMint : Option String
  payerAta : Option String
  payerBalance : String
  mintAmount : Nat
  logs : List String
  deriving DecidableEq

/-- The tracked State Tracker fields of the spec: selected mint, payer associated
account, payer balance (the log is observational, the mint amount is a form field). -/
def tracked (st : ClientState) : Option String × Option String × String :=
  (st.selectedMint, st.payerAta, st.payerBalance)

/-- Outcome an action handler reports: the success or failure message it logs. -/
inductive Outcome where
  | ok : String → Outcome
  | err : String → Outcome
  deriving DecidableEq

def Outcome.isErr : Outcome → Bool
  | .ok _ => false
  | .err _ => true

/-- Observable steps an action handler performs: address derivations, built
instructions, and network calls (account probes, sends, confirmations, program rpc). -/
inductive Effect where
  | rpcProgramCall : String → Effect
  | rpcGetAccountInfo : String → Effect
  | rpcGetTokenAccount : String → Effect
  | rpcSend : Effect
  | rpcConfirm : Effect
  | derive : String → String → Effect
  | ixCreateAta : String → String → String → String → Effect
  | ixMintTo : String → String → String → Nat → Effect
  | ixTransferFee : List Nat → Effect
  | ixWithdrawWithheld : String → String → String → Effect
  deriving DecidableEq

def Effect.isCreateAta : Effect → Bool
  | .ixCreateAta _ _ _ _ => true
  | _ => false

/-- Number of associated-account creation instructions in an effect list. -/
def creationIxCount (es : List Effect) : Nat :=
  (es.filter Effect.isCreateAta).length

/-- Result of running one action handler: updated client state, effect list, outcome. -/
structure OpResult where
  state : ClientState
  effects : List Effect
  outcome : Outcome
  deriving DecidableEq

/-- JavaScript whitespace test for the characters relevant to `String.prototype.trim`. -/
def jsWhitespace (c : Char) : Bool :=
  c == ' ' || c == '\t' || c == '\n' || c == '\r'

/-- Embeds the JavaScript `value.trim()` on an input field: strips leading and
trailing whitespace. -/
def jsTrim (s : String) : String :=
  String.mk (((s.data.dropWhile jsWhitespace).reverse.dropWhile jsWhitespace).reverse)

/-- Emptiness of a string, the JavaScript falsiness test `!v` on a string value. -/
def strEmpty (s : String) : Bool :=
  s.data.isEmpty

/-- Embeds `pushLog` (ProgramControls.tsx line 28):
`setLogs((l) => [s, ...l].slice(0, 20))`. -/
def pushLog (s : String) (l : List String) : List String :=
  (s :: l).take 20

/-- The program id constant (ProgramControls.tsx line 17), abstract here. -/
def programId : String := "PROGRAM_ID"

/-- Embeds the deterministic associated-token-address derivation
`getAssociatedTokenAddress(mint, owner, ...)` consumed from the token library:
a pure function of (mint, owner). -/
def deriveAta (mint owner : String) : String :=
  "ata(" ++ mint ++ "," ++ owner ++ ")"

/-- Embeds `loadProgram` (ProgramControls.tsx lines 30-39): with no wallet key it
logs `Wallet not connected` and returns null, otherwise it logs and returns
the program handle. -/
def loadProgram (st : ClientState) : Option String × ClientState :=
  match st.walletKey with
  | none => (none, { st with logs := pushLog "Wallet not connected" st.logs })
  | some _ => (some programId, { st with logs := pushLog ("Program loaded: " ++ programId) st.logs })

/-- Embeds `createTaxedToken` (ProgramControls.tsx lines 41-71).  `newMint` is the
generated mint keypair's public key, `rpcReply` the result of the anchor `.rpc()`
submission.  On success the selected mint is recorded; on failure only the log changes. -/
def createTaxedToken (newMint : String) (rpcReply : Except String String)
    (st : ClientState) : OpResult :=
  match loadProgram st with
  | (none, st1) => { state := st1, effects := [], outcome := .err "Wallet not connected" }
  | (some _, st1) =>
      let st2 := { st1 with logs := pushLog ("Creating taxed token, mint: " ++ newMint) st1.logs }
      match rpcReply with
      | .error e =>
          { state := { st2 with logs := pushLog ("createTaxedToken failed: " ++ e) st2.logs }
            effects := [.rpcProgramCall "createTaxedToken"]
            outcome := .err ("createTaxedToken failed: " ++ e) }
      | .ok sig =>
          { state := { st2 with
                         selectedMint := some newMint
                         logs := pushLog ("createTaxedToken succeeded: " ++ sig) st2.logs }
            effects := [.rpcProgramCall "createTaxedToken"]
            outcome := .ok ("createTaxedToken succeeded: " ++ sig) }

/-- Embeds `createPayerAta` (ProgramControls.tsx lines 100-135).  `acctReply` is the
transport's `getAccountInfo` reply for the derived address (`.error` a thrown
transport failure, `.ok none` "no account found", `.ok (some _)` an existing
account); `sendReply` and `confirmReply` are the submission and confirmation
results.  An existing account is recorded without building any instruction. -/
def createPayerAta (acctReply : Except String (Option String))
    (sendReply : Except String String) (confirmReply : Except String Unit)
    (st : ClientState) : OpResult :=
  match st.selectedMint with
  | none => { state := { st with logs := pushLog "No mint selected" st.logs }
              effects := [], outcome := .err "No mint selected" }
  | some mint =>
    match st.walletKey with
    | none => { state := { st with logs := pushLog "Wallet not connected" st.logs }
                effects := [], outcome := .err "Wallet not connected" }
    | some wk =>
      let ata := deriveAta mint wk
      match acctReply with
      | .error e =>
          { state := { st with logs := pushLog ("createPayerAta failed: " ++ e) st.logs }
            effects := [.derive mint wk, .rpcGetAccountInfo ata]
            outcome := .err ("createPayerAta failed: " ++ e) }
      | .ok (some _) =>
          { state := { st with
                         payerAta := some ata
                         logs := pushLog ("Payer ATA already exists: " ++ ata) st.logs }
            effects := [.derive mint wk, .rpcGetAccountInfo ata]
            outcome := .ok ("Payer ATA already exists: " ++ ata) }
      | .ok none =>
          match sendReply with
          | .error e =>
              { state := { st with logs := pushLog ("createPayerAta failed: " ++ e) st.logs }
                effects := [.derive mint wk, .rpcGetAccountInfo ata,
                            .ixCreateAta wk ata wk mint, .rpcSend]
                outcome := .err ("createPayerAta failed: " ++ e) }
          | .ok sig =>
              match confirmReply with
              | .error e =>
                  { state := { st with logs := pushLog ("createPayerAta failed: " ++ e) st.logs }
                    effects := [.derive mint wk, .rpcGetAccountInfo ata,
                                .ixCreateAta wk ata wk mint, .rpcSend, .rpcConfirm]
                    outcome := .err ("createPayerAta failed: " ++ e) }
              | .ok _ =>
                  { state := { st with
                                 payerAta := some ata
                                 logs := pushLog ("Created payer ATA: " ++ ata ++ " (" ++ sig ++ ")") st.logs }
                    effects := [.derive mint wk, .rpcGetAccountInfo ata,
                                .ixCreateAta wk ata wk mint, .rpcSend, .rpcConfirm]
                    outcome := .ok ("Created payer ATA: " ++ ata ++ " (" ++ sig ++ ")") }

/-- Embeds `mintToPayer` (ProgramControls.tsx lines 137-156): mint and payer ATA are
checked with one combined guard, then wallet connection; the mint amount is the
optional argument or the tracked field; failure and success only touch the log. -/
def mintToPayer (amountArg : Option Nat) (sendReply : Except String String)
    (confirmReply : Except String Unit) (st : ClientState) : OpResult :=
  match st.selectedMint, st.payerAta with
  | some mint, some ata =>
      match st.walletKey with
      | none => { state := { st with logs := pushLog "Wallet not connected" st.logs }
                  effects := [], outcome := .err "Wallet not connected" }
      | some wk =>
          let amt := amountArg.getD st.mintAmount
          match sendReply with
          | .error e =>
              { state := { st with logs := pushLog ("mintTo failed: " ++ e) st.logs }
                effects := [.ixMintTo mint ata wk amt, .rpcSend]
                outcome := .err ("mintTo failed: " ++ e) }
          | .ok sig =>
              match confirmReply with
              | .error e =>
                  { state := { st with logs := pushLog ("mintTo failed: " ++ e) st.logs }
                    effects := [.ixMintTo mint ata wk amt, .rpcSend, .rpcConfirm]
                    outcome := .err ("mintTo failed: " ++ e) }
              | .ok _ =>
                  { state := { st with logs := pushLog ("mintTo succeeded: " ++ sig ++ " amount: " ++ toString amt) st.logs }
                    effects := [.ixMintTo mint ata wk amt, .rpcSend, .rpcConfirm]
                    outcome := .ok ("mintTo succeeded: " ++ sig ++ " amount: " ++ toString amt) }
  | _, _ =>
      { state := { st with logs := pushLog "Missing mint or payer ATA" st.logs }
        effects := [], outcome := .err "Missing mint or payer ATA" }

/-- Embeds the Transfer With Fee onClick handler (ProgramControls.tsx lines 251-297).
`vRaw` is the recipient field, `amt` the `Number(...)` result of the amount field
(an empty field becomes `0` through the `|| char-zero` default at line 256), `pkReply`
the result of `new PublicKey(v)` (`none` models the thrown parse error).  The guard
`if (!v || !amt)` rejects an empty recipient and a `NaN` or zero amount before any
derivation or encoding.  The data buffer carries the hardcoded fee `0`; a missing
mint or wallet surfaces as a caught exception, only logged. -/
def transferWithFee (vRaw : String) (amt : JsNum) (pkReply : Option String)
    (sendReply : Except String String) (confirmReply : Except String Unit)
    (st : ClientState) : OpResult :=
  let v := jsTrim vRaw
  match amt with
  | .nan =>
      { state := { st with logs := pushLog "Provide recipient and amount" st.logs }
        effects := [], outcome := .err "Provide recipient and amount" }
  | .val n =>
      if strEmpty v || n == 0 then
        { state := { st with logs := pushLog "Provide recipient and amount" st.logs }
          effects := [], outcome := .err "Provide recipient and amount" }
      else
        match st.selectedMint, st.walletKey with
        | some mint, some wk =>
            match pkReply with
            | none =>
                { state := { st with logs := pushLog "transferWithFee failed: invalid public key" st.logs }
                  effects := [], outcome := .err "transferWithFee failed: invalid public key" }
            | some rpk =>
                match encodeTransferWithFee n 6 0 with
                | none =>
                    { state := { st with logs := pushLog "transferWithFee failed: amount out of u64 range" st.logs }
                      effects := [.derive mint rpk]
                      outcome := .err "transferWithFee failed: amount out of u64 range" }
                | some data =>
                    match sendReply with
                    | .error e =>
                        { state := { st with logs := pushLog ("transferWithFee failed: " ++ e) st.logs }
                          effects := [.derive mint rpk, .derive mint wk, .ixTransferFee data, .rpcSend]
                          outcome := .err ("transferWithFee failed: " ++ e) }
                    | .ok sig =>
                        match confirmReply with
                        | .error e =>
                            { state := { st with logs := pushLog ("transferWithFee failed: " ++ e) st.logs }
                              effects := [.derive mint rpk, .derive mint wk, .ixTransferFee data, .rpcSend, .rpcConfirm]
                              outcome := .err ("transferWithFee failed: " ++ e) }
                        | .ok _ =>
                            { state := { st with logs := pushLog ("TransferWithFee succeeded: " ++ sig) st.logs }
                              effects := [.derive mint rpk, .derive mint wk, .ixTransferFee data, .rpcSend, .rpcConfirm]
                              outcome := .ok ("TransferWithFee succeeded: " ++ sig) }
        | _, _ =>
            { state := { st with logs := pushLog "transferWithFee failed: missing mint or wallet" st.logs }
              effects := [], outcome := .err "transferWithFee failed: missing mint or wallet" }

/-- Embeds the Withdraw Withheld onClick handler (ProgramControls.tsx lines 322-340):
mint check, destination field check, destination PublicKey parse, then the
withdraw-withheld-tokens-from-mint instruction; only the log is touched. -/
def withdrawWithheld (vRaw : String) (pkReply : Option String)
    (sendReply : Except String String) (confirmReply : Except String Unit)
    (st : ClientState) : OpResult :=
  match st.selectedMint with
  | none => { state := { st with logs := pushLog "No mint selected" st.logs }
              effects := [], outcome := .err "No mint selected" }
  | some mint =>
      let v := jsTrim vRaw
      if strEmpty v then
        { state := { st with logs := pushLog "Enter destination ATA pubkey" st.logs }
          effects := [], outcome := .err "Enter destination ATA pubkey" }
      else
        match pkReply with
        | none =>
            { state := { st with logs := pushLog "withdrawWithheld failed: invalid public key" st.logs }
              effects := [], outcome := .err "withdrawWithheld failed: invalid public key" }
        | some dest =>
            match st.walletKey with
            | none =>
                { state := { st with logs := pushLog "withdrawWithheld failed: missing wallet" st.logs }
                  effects := [], outcome := .err "withdrawWithheld failed: missing wallet" }
            | some wk =>
                match sendReply with
                | .error e =>
                    { state := { st with logs := pushLog ("withdrawWithheld failed: " ++ e) st.logs }
                      effects := [.derive mint wk, .ixWithdrawWithheld mint dest wk, .rpcSend]
                      outcome := .err ("withdrawWithheld failed: " ++ e) }
                | .ok sig =>
                    match confirmReply with
                    | .error e =>
                        { state := { st with logs := pushLog ("withdrawWithheld failed: " ++ e) st.logs }
                          effects := [.derive mint wk, .ixWithdrawWithheld mint dest wk, .rpcSend, .rpcConfirm]
                          outcome := .err ("withdrawWithheld failed: " ++ e) }
                    | .ok _ =>
                        { state := { st with logs := pushLog ("withdrawWithheld succeeded: " ++ sig) st.logs }
                          effects := [.derive mint wk, .ixWithdrawWithheld mint dest wk, .rpcSend, .rpcConfirm]
                          outcome := .ok ("withdrawWithheld succeeded: " ++ sig) }

/-- Embeds `refreshPayerBalance` (ProgramControls.tsx lines 158-172): the token
account query returns (balance, withheld); the balance field is updated only on a
successful query. -/
def refreshPayerBalance (acctReply : Except String (Nat × Nat))
    (st : ClientState) : OpResult :=
  match st.payerAta with
  | none => { state := { st with logs := pushLog "No payer ATA" st.logs }
              effects := [], outcome := .err "No payer ATA" }
  | some ata =>
      match acctReply with
      | .error e =>
          { state := { st with logs := pushLog ("refreshPayerBalance failed: " ++ e) st.logs }
            effects := [.rpcGetTokenAccount ata]
            outcome := .err ("refreshPayerBalance failed: " ++ e) }
      | .ok (amount, withheld) =>
          { state := { st with
                       payerBalance := toString amount
                       logs := pushLog ("Payer ATA balance: " ++ toString amount ++ " withheld: " ++ toString withheld) st.logs }
            effects := [.rpcGetTokenAccount ata]
            outcome := .ok ("Payer ATA balance: " ++ toString amount ++ " withheld: " ++ toString withheld) }



theorem pushLog_eq (s : String) (l : List String) : pushLog s l = s :: l.take 19 := rfl

theorem pushLog_length_le (s : String) (l : List String) : (pushLog s l).length ≤ 20 := by
  simp [pushLog_eq]

/-- C2: for every amount and fee fitting in unsigned 64 bits and every 8-bit decimals,
the encoded transfer-with-fee payload is exactly the extension-selector byte 26, the
sub-instruction byte 1, the amount as 8 little-endian bytes, the decimals byte, and the
fee as 8 little-endian bytes; decoding the header of the encoding for amount 100000,
decimals 6, fee 1000 recovers the two selector bytes 26 and 1. -/
theorem C2_encoding_layout (amount fee : Int) (decimals : Nat)
    (ha0 : 0 ≤ amount) (ha : amount < 2 ^ 64) (hf0 : 0 ≤ fee) (hf : fee < 2 ^ 64)
    (hd : decimals < 256) :
    encodeTransferWithFee amount decimals fee =
      some ([26, 1] ++ leBytes 8 amount.toNat ++ [decimals] ++ leBytes 8 fee.toNat) ∧
    (encodeTransferWithFee 100000 6 1000).map (fun d => d.take 2) = some [26, 1] := by
  constructor
  · have he := encodeTransferWithFee_eq amount fee decimals ha0 ha hf0 hf
    rwa [Nat.mod_eq_of_lt hd] at he
  · decide

/-- Witness for C2 at amount 100000, decimals 6, fee 1000. -/
theorem C2_encoding_layout_witness :
    encodeTransferWithFee 100000 6 1000 =
      some ([26, 1] ++ leBytes 8 ((100000 : Int).toNat) ++ [6] ++ leBytes 8 ((1000 : Int).toNat)) ∧
    (encodeTransferWithFee 100000 6 1000).map (fun d => d.take 2) = some [26, 1] :=
  C2_encoding_layout 100000 1000 6 (by decide) (by decide) (by decide) (by decide) (by decide)

/-- C1 counterexample: at amount 100000, feeBps 100, maximumFee 1000000 the formula
fee is 1000, but the final 8-byte little-endian field of the payload the client
submits encodes 0, not the computed fee. -/
theorem C1_counterexample :
    computedFee 100000 100 1000000 = 1000 ∧
    appTransferData 100000 = some ([26, 1] ++ leBytes 8 100000 ++ [6] ++ leBytes 8 0) ∧
    leBytes 8 0 ≠ leBytes 8 (computedFee 100000 100 1000000) := by decide

/-- C1 as amended: the fee formula min(maximumFee, ceil(amount*feeBps/10000)) does
satisfy fee ≤ amount for feeBps ≤ 10000, but the client does not place it in the
encoded instruction: for every in-range amount, the final 8-byte little-endian field
of the submitted transfer payload encodes the constant 0. -/
theorem C1_fee_field_zero (amt : Int) (h0 : 0 ≤ amt) (h64 : amt < 2 ^ 64)
    (amount feeBps maximumFee : Nat) (hb : feeBps ≤ 10000) :
    appTransferData amt = some ([26, 1] ++ leBytes 8 amt.toNat ++ [6] ++ leBytes 8 0) ∧
    computedFee amount feeBps maximumFee ≤ amount := by
  constructor
  · have he := encodeTransferWithFee_eq amt 0 6 h0 h64 le_rfl (by norm_num)
    rw [appTransferData, he]
    norm_num
  · have hmin : computedFee amount feeBps maximumFee ≤ ceilFee amount feeBps := by
      rw [computedFee]; exact min_le_right _ _
    have h1 : amount * feeBps + 9999 ≤ 9999 + amount * 10000 := by
      have h2 := Nat.mul_le_mul_left amount hb
      linarith
    have h3 : (amount * feeBps + 9999) / 10000 ≤ (9999 + amount * 10000) / 10000 :=
      Nat.div_le_div_right h1
    have h4 : (9999 + amount * 10000) / 10000 = amount := by
      rw [Nat.add_mul_div_right 9999 amount (by norm_num : (0 : Nat) < 10000)]
      norm_num
    rw [h4] at h3
    exact le_trans hmin h3

/-- Witness for C1 as amended, at amount 100000, feeBps 100, maximumFee 1000000. -/
theorem C1_fee_field_zero_witness :
    appTransferData 100000 = some ([26, 1] ++ leBytes 8 ((100000 : Int).toNat) ++ [6] ++ leBytes 8 0) ∧
    computedFee 100000 100 1000000 ≤ 100000 :=
  C1_fee_field_zero 100000 (by decide) (by decide) 100000 100 1000000 (by decide)

/-- C8: with the mint parameters of createTaxedToken (decimals 6, feeBps 100,
maximumFee 1000000), the default mint amount 1000000 and a transfer of 100000, the
withheld fee is 1000 and the recipient's net received amount is 99000, by exact
integer arithmetic. -/
theorem C8_scenarioA_arithmetic :
    taxedTokenDecimals = 6 ∧ taxedTokenFeeBps = 100 ∧ taxedTokenMaximumFee = 1000000 ∧
    defaultMintAmount = 1000000 ∧
    computedFee 100000 taxedTokenFeeBps taxedTokenMaximumFee = 1000 ∧
    netReceived 100000 taxedTokenFeeBps taxedTokenMaximumFee = 99000 := by decide

/-- C9: every log write prepends: the newest entry is the head of the log, and the
surviving prior entries are the first 19 old entries in their previous order (the
oldest past the 20-entry bound are the ones trimmed). -/
theorem C9_log_prepend (s : String) (l : List String) :
    (pushLog s l).head? = some s ∧ (pushLog s l).tail = l.take 19 := by
  constructor <;> simp [pushLog_eq]

/-- C3 counterexample: mintToPayer reports the missing-mint case and the
missing-associated-account case with the same combined error, so the three
missing-precondition cases are not pairwise distinguishable; moreover the
transfer-with-fee handler submits (rpcSend occurs) even though the payer
associated account is missing, so that case does not fail fast there. -/
theorem C3_counterexample :
    (mintToPayer none (Except.ok "sig") (Except.ok ())
      { walletKey := some "W", selectedMint := none, payerAta := some "A",
        payerBalance := "0", mintAmount := 1000000, logs := [] }).outcome
      = Outcome.err "Missing mint or payer ATA" ∧
    (mintToPayer none (Except.ok "sig") (Except.ok ())
      { walletKey := some "W", selectedMint := some "M", payerAta := none,
        payerBalance := "0", mintAmount := 1000000, logs := [] }).outcome
      = Outcome.err "Missing mint or payer ATA" ∧
    Effect.rpcSend ∈ (transferWithFee "R" (JsNum.val 5) (some "R") (Except.ok "sig") (Except.ok ())
      { walletKey := some "W", selectedMint := some "M", payerAta := none,
        payerBalance := "0", mintAmount := 1000000, logs := [] }).effects := by decide

/-- C3 as amended: each checked missing precondition fails fast, with an error and
no effects (no instruction built, no network call): missing wallet in
createTaxedToken and loadProgram, missing mint then missing wallet in
createPayerAta, missing mint or payer account then missing wallet in mintToPayer,
missing payer account in refreshPayerBalance.  The wallet, mint and no-payer-ATA
errors are pairwise distinct, but mintToPayer reports missing mint and missing
payer account with one combined error, and the transfer-with-fee entry point does
not check the payer account at all (see the counterexample). -/
theorem C3_fail_fast (nm : String) (rr sr : Except String String) (cr : Except String Unit)
    (ar : Except String (Option String)) (qr : Except String (Nat × Nat))
    (aa : Option Nat) (m a : String) (st : ClientState) :
    ((createTaxedToken nm rr { st with walletKey := none }).outcome = .err "Wallet not connected" ∧
     (createTaxedToken nm rr { st with walletKey := none }).effects = []) ∧
    (loadProgram { st with walletKey := none }).1 = none ∧
    ((createPayerAta ar sr cr { st with selectedMint := none }).outcome = .err "No mint selected" ∧
     (createPayerAta ar sr cr { st with selectedMint := none }).effects = []) ∧
    ((createPayerAta ar sr cr { st with selectedMint := some m, walletKey := none }).outcome = .err "Wallet not connected" ∧
     (createPayerAta ar sr cr { st with selectedMint := some m, walletKey := none }).effects = []) ∧
    ((mintToPayer aa sr cr { st with selectedMint := none }).outcome = .err "Missing mint or payer ATA" ∧
     (mintToPayer aa sr cr { st with selectedMint := none }).effects = []) ∧
    ((mintToPayer aa sr cr { st with payerAta := none }).outcome = .err "Missing mint or payer ATA" ∧
     (mintToPayer aa sr cr { st with payerAta := none }).effects = []) ∧
    ((mintToPayer aa sr cr { st with selectedMint := some m, payerAta := some a, walletKey := none }).outcome = .err "Wallet not connected" ∧
     (mintToPayer aa sr cr { st with selectedMint := some m, payerAta := some a, walletKey := none }).effects = []) ∧
    ((refreshPayerBalance qr { st with payerAta := none }).outcome = .err "No payer ATA" ∧
     (refreshPayerBalance qr { st with payerAta := none }).effects = []) ∧
    ("Wallet not connected" ≠ "No mint selected" ∧
     "Wallet not connected" ≠ "Missing mint or payer ATA" ∧
     "No mint selected" ≠ "Missing mint or payer ATA") := by
  refine ⟨?_, ?_, ?_, ?_, ?_, ?_, ?_, ?_, ?_⟩
  · simp [createTaxedToken, loadProgram]
  · simp [loadProgram]
  · simp [createPayerAta]
  · simp [createPayerAta]
  · cases h : st.payerAta <;> simp [mintToPayer, h]
  · cases h : st.selectedMint <;> simp [mintToPayer, h]
  · simp [mintToPayer]
  · simp [refreshPayerBalance]
  · refine ⟨by decide, by decide, by decide⟩

/-- C5: requesting the payer associated account when it already exists produces zero
creation instructions and a success outcome recording the existing derived address;
when it does not exist, exactly one creation instruction is produced. -/
theorem C5_create_account_idempotent (sr : Except String String) (cr : Except String Unit)
    (info : String) (st : ClientState) (mint wk : String) :
    (createPayerAta (Except.ok (some info)) sr cr { st with selectedMint := some mint, walletKey := some wk }).outcome
      = .ok ("Payer ATA already exists: " ++ deriveAta mint wk) ∧
    creationIxCount (createPayerAta (Except.ok (some info)) sr cr { st with selectedMint := some mint, walletKey := some wk }).effects = 0 ∧
    (createPayerAta (Except.ok (some info)) sr cr { st with selectedMint := some mint, walletKey := some wk }).state.payerAta
      = some (deriveAta mint wk) ∧
    creationIxCount (createPayerAta (Except.ok none) sr cr { st with selectedMint := some mint, walletKey := some wk }).effects = 1 := by
  refine ⟨?_, ?_, ?_, ?_⟩
  · simp [createPayerAta]
  · simp [createPayerAta, creationIxCount, Effect.isCreateAta]
  · simp [createPayerAta]
  · cases sr with
    | error e => simp [createPayerAta, creationIxCount, Effect.isCreateAta]
    | ok sg => cases cr <;> simp [createPayerAta, creationIxCount, Effect.isCreateAta]

/-- C6: a thrown transport error on the account probe is propagated as a failure of
the operation, producing no creation instruction and leaving the recorded payer
account unchanged, while the null reply (no account found) is treated as the
account not existing and leads to exactly one creation instruction. -/
theorem C6_account_probe_semantics (e : String) (sr : Except String String)
    (cr : Except String Unit) (st : ClientState) (mint wk : String) :
    (createPayerAta (Except.error e) sr cr { st with selectedMint := some mint, walletKey := some wk }).outcome
      = .err ("createPayerAta failed: " ++ e) ∧
    (createPayerAta (Except.error e) sr cr { st with selectedMint := some mint, walletKey := some wk }).effects
      = [.derive mint wk, .rpcGetAccountInfo (deriveAta mint wk)] ∧
    (createPayerAta (Except.error e) sr cr { st with selectedMint := some mint, walletKey := some wk }).state.payerAta
      = st.payerAta ∧
    creationIxCount (createPayerAta (Except.ok none) sr cr { st with selectedMint := some mint, walletKey := some wk }).effects = 1 := by
  refine ⟨?_, ?_, ?_, ?_⟩
  · simp [createPayerAta]
  · simp [createPayerAta]
  · simp [createPayerAta]
  · cases sr with
    | error e2 => simp [createPayerAta, creationIxCount, Effect.isCreateAta]
    | ok sg => cases cr <;> simp [createPayerAta, creationIxCount, Effect.isCreateAta]

/-- C10: a transfer request whose amount is NaN (unparsable) or 0 (also the value an
empty amount field defaults to through the logical-or with the zero character), or
whose recipient field is empty or whitespace, fails with the precondition error and
produces no effects: no derivation, no encoding, no network call, and no tracked
state change. -/
theorem C10_transfer_input_guard (v : String) (am : JsNum) (pk : Option String)
    (sr : Except String String) (cr : Except String Unit) (st : ClientState) :
    ((transferWithFee v JsNum.nan pk sr cr st).outcome = .err "Provide recipient and amount" ∧
     (transferWithFee v JsNum.nan pk sr cr st).effects = []) ∧
    ((transferWithFee v (JsNum.val 0) pk sr cr st).outcome = .err "Provide recipient and amount" ∧
     (transferWithFee v (JsNum.val 0) pk sr cr st).effects = []) ∧
    ((transferWithFee "" am pk sr cr st).outcome = .err "Provide recipient and amount" ∧
     (transferWithFee "" am pk sr cr st).effects = []) ∧
    ((transferWithFee "   " am pk sr cr st).outcome = .err "Provide recipient and amount" ∧
     (transferWithFee "   " am pk sr cr st).effects = []) ∧
    tracked (transferWithFee v JsNum.nan pk sr cr st).state = tracked st := by
  have h1 : strEmpty (jsTrim "") = true := by decide
  have h2 : strEmpty (jsTrim "   ") = true := by decide
  refine ⟨?_, ?_, ?_, ?_, ?_⟩
  · simp [transferWithFee]
  · simp [transferWithFee]
  · cases am <;> simp [transferWithFee, h1]
  · cases am <;> simp [transferWithFee, h2]
  · simp [transferWithFee, tracked]


/-- C4: on every failure path the tracked State Tracker fields (selected mint,
payer associated account, payer balance) are exactly as before the operation; the
three operations that never record state leave them unchanged unconditionally, and
for the recording operations any outcome other than success leaves them unchanged. -/
theorem C4_no_partial_state (nm : String) (rr sr : Except String String)
    (cr : Except String Unit) (ar : Except String (Option String))
    (qr : Except String (Nat × Nat)) (aa : Option Nat) (v : String) (am : JsNum)
    (pk : Option String) (st : ClientState) :
    ((createTaxedToken nm rr st).outcome.isErr = false ∨
      tracked (createTaxedToken nm rr st).state = tracked st) ∧
    ((createPayerAta ar sr cr st).outcome.isErr = false ∨
      tracked (createPayerAta ar sr cr st).state = tracked st) ∧
    tracked (mintToPayer aa sr cr st).state = tracked st ∧
    tracked (transferWithFee v am pk sr cr st).state = tracked st ∧
    tracked (withdrawWithheld v pk sr cr st).state = tracked st ∧
    ((refreshPayerBalance qr st).outcome.isErr = false ∨
      tracked (refreshPayerBalance qr st).state = tracked st) := by
  refine ⟨?_, ?_, ?_, ?_, ?_, ?_⟩
  · cases hw : st.walletKey <;> cases rr <;>
      simp [createTaxedToken, loadProgram, hw, tracked, Outcome.isErr]
  · cases hm : st.selectedMint with
    | none => simp [createPayerAta, hm, tracked, Outcome.isErr]
    | some mint =>
      cases hw : st.walletKey with
      | none => simp [createPayerAta, hm, hw, tracked, Outcome.isErr]
      | some wk =>
        cases ar with
        | error e => simp [createPayerAta, hm, hw, tracked, Outcome.isErr]
        | ok o =>
          cases o with
          | some i => simp [createPayerAta, hm, hw, tracked, Outcome.isErr]
          | none =>
            cases sr with
            | error e => simp [createPayerAta, hm, hw, tracked, Outcome.isErr]
            | ok sg => cases cr <;> simp [createPayerAta, hm, hw, tracked, Outcome.isErr]
  · cases hm : st.selectedMint <;> cases ha : st.payerAta <;>
      cases hw : st.walletKey <;> cases sr <;> cases cr <;>
        simp [mintToPayer, hm, ha, hw, tracked]
  · cases am with
    | nan => simp [transferWithFee, tracked]
    | val n =>
      simp only [transferWithFee]
      by_cases h : strEmpty (jsTrim v) || n == 0
      · simp [h, tracked]
      · cases hm : st.selectedMint <;> cases hw : st.walletKey <;>
          cases pk <;> cases he : encodeTransferWithFee n 6 0 <;>
            cases sr <;> cases cr <;>
              simp [h, hm, hw, he, tracked]
  · cases hm : st.selectedMint with
    | none => simp [withdrawWithheld, hm, tracked]
    | some mint =>
      simp only [withdrawWithheld, hm]
      by_cases h : strEmpty (jsTrim v)
      · simp [h, hm, tracked]
      · cases pk <;> cases hw : st.walletKey <;> cases sr <;> cases cr <;>
          simp [h, hm, hw, tracked]
  · cases ha : st.payerAta with
    | none => simp [refreshPayerBalance, ha, tracked, Outcome.isErr]
    | some ata =>
      rcases qr with e | ⟨amt2, wh⟩ <;>
        simp [refreshPayerBalance, ha, tracked, Outcome.isErr]

theorem createTaxedToken_logs (nm : String) (rr : Except String String)
    (st : ClientState) (l : List String) :
    (createTaxedToken nm rr { st with logs := l }).outcome = (createTaxedToken nm rr st).outcome ∧
    (createTaxedToken nm rr { st with logs := l }).effects = (createTaxedToken nm rr st).effects ∧
    tracked (createTaxedToken nm rr { st with logs := l }).state = tracked (createTaxedToken nm rr st).state ∧
    (createTaxedToken nm rr st).state.logs.length ≤ 20 := by
  cases hw : st.walletKey <;> cases rr <;>
    simp [createTaxedToken, loadProgram, hw, tracked, pushLog_length_le]

theorem createPayerAta_logs (ar : Except String (Option String))
    (sr : Except String String) (cr : Except String Unit)
    (st : ClientState) (l : List String) :
    (createPayerAta ar sr cr { st with logs := l }).outcome = (createPayerAta ar sr cr st).outcome ∧
    (createPayerAta ar sr cr { st with logs := l }).effects = (createPayerAta ar sr cr st).effects ∧
    tracked (createPayerAta ar sr cr { st with logs := l }).state = tracked (createPayerAta ar sr cr st).state ∧
    (createPayerAta ar sr cr st).state.logs.length ≤ 20 := by
  cases hm : st.selectedMint with
  | none => simp [createPayerAta, hm, tracked, pushLog_length_le]
  | some mint =>
    cases hw : st.walletKey with
    | none => simp [createPayerAta, hm, hw, tracked, pushLog_length_le]
    | some wk =>
      cases ar with
      | error e => simp [createPayerAta, hm, hw, tracked, pushLog_length_le]
      | ok o =>
        cases o with
        | some i => simp [createPayerAta, hm, hw, tracked, pushLog_length_le]
        | none =>
          cases sr with
          | error e => simp [createPayerAta, hm, hw, tracked, pushLog_length_le]
          | ok sg => cases cr <;> simp [createPayerAta, hm, hw, tracked, pushLog_length_le]

theorem mintToPayer_logs (aa : Option Nat) (sr : Except String String)
    (cr : Except String Unit) (st : ClientState) (l : List String) :
    (mintToPayer aa sr cr { st with logs := l }).outcome = (mintToPayer aa sr cr st).outcome ∧
    (mintToPayer aa sr cr { st with logs := l }).effects = (mintToPayer aa sr cr st).effects ∧
    tracked (mintToPayer aa sr cr { st with logs := l }).state = tracked (mintToPayer aa sr cr st).state ∧
    (mintToPayer aa sr cr st).state.logs.length ≤ 20 := by
  cases hm : st.selectedMint <;> cases ha : st.payerAta <;>
    cases hw : st.walletKey <;> cases sr <;> cases cr <;>
      simp [mintToPayer, hm, ha, hw, tracked, pushLog_length_le]

theorem transferWithFee_logs (v : String) (am : JsNum) (pk : Option String)
    (sr : Except String String) (cr : Except String Unit)
    (st : ClientState) (l : List String) :
    (transferWithFee v am pk sr cr { st with logs := l }).outcome = (transferWithFee v am pk sr cr st).outcome ∧
    (transferWithFee v am pk sr cr { st with logs := l }).effects = (transferWithFee v am pk sr cr st).effects ∧
    tracked (transferWithFee v am pk sr cr { st with logs := l }).state = tracked (transferWithFee v am pk sr cr st).state ∧
    (transferWithFee v am pk sr cr st).state.logs.length ≤ 20 := by
  cases am with
  | nan => simp [transferWithFee, tracked, pushLog_length_le]
  | val n =>
    simp only [transferWithFee]
    by_cases h : strEmpty (jsTrim v) || n == 0
    · simp [h, tracked, pushLog_length_le]
    · cases hm : st.selectedMint <;> cases hw : st.walletKey <;>
        cases pk <;> cases he : encodeTransferWithFee n 6 0 <;>
          cases sr <;> cases cr <;>
            simp [h, hm, hw, he, tracked, pushLog_length_le]

theorem withdrawWithheld_logs (v : String) (pk : Option String)
    (sr : Except String String) (cr : Except String Unit)
    (st : ClientState) (l : List String) :
    (withdrawWithheld v pk sr cr { st with logs := l }).outcome = (withdrawWithheld v pk sr cr st).outcome ∧
    (withdrawWithheld v pk sr cr { st with logs := l }).effects = (withdrawWithheld v pk sr cr st).effects ∧
    tracked (withdrawWithheld v pk sr cr { st with logs := l }).state = tracked (withdrawWithheld v pk sr cr st).state ∧
    (withdrawWithheld v pk sr cr st).state.logs.length ≤ 20 := by
  cases hm : st.selectedMint with
  | none => simp [withdrawWithheld, hm, tracked, pushLog_length_le]
  | some mint =>
    simp only [withdrawWithheld, hm]
    by_cases h : strEmpty (jsTrim v)
    · simp [h, hm, tracked, pushLog_length_le]
    · cases pk <;> cases hw : st.walletKey <;> cases sr <;> cases cr <;>
        simp [h, hm, hw, tracked, pushLog_length_le]

theorem refreshPayerBalance_logs (qr : Except String (Nat × Nat))
    (st : ClientState) (l : List String) :
    (refreshPayerBalance qr { st with logs := l }).outcome = (refreshPayerBalance qr st).outcome ∧
    (refreshPayerBalance qr { st with logs := l }).effects = (refreshPayerBalance qr st).effects ∧
    tracked (refreshPayerBalance qr { st with logs := l }).state = tracked (refreshPayerBalance qr st).state ∧
    (refreshPayerBalance qr st).state.logs.length ≤ 20 := by
  cases ha : st.payerAta with
  | none => simp [refreshPayerBalance, ha, tracked, pushLog_length_le]
  | some ata =>
    rcases qr with e | ⟨amt2, wh⟩ <;>
      simp [refreshPayerBalance, ha, tracked, pushLog_length_le]

/-- C7: every log write through pushLog leaves at most 20 entries (trimming is
silent), each operation's resulting log also holds at most 20 entries, and the log
contents never influence any operation's outcome, effects or tracked state: running
any operation from states differing only in the log gives the same outcome, the
same effects and the same tracked fields. -/
theorem C7_log_bounded_and_observational (s : String) (l l2 : List String)
    (st : ClientState) (nm : String) (rr sr : Except String String)
    (cr : Except String Unit) (ar : Except String (Option String))
    (qr : Except String (Nat × Nat)) (aa : Option Nat) (v : String) (am : JsNum)
    (pk : Option String) :
    (pushLog s l).length ≤ 20 ∧
    ((createTaxedToken nm rr { st with logs := l2 }).outcome = (createTaxedToken nm rr st).outcome ∧
     (createTaxedToken nm rr { st with logs := l2 }).effects = (createTaxedToken nm rr st).effects ∧
     tracked (createTaxedToken nm rr { st with logs := l2 }).state = tracked (createTaxedToken nm rr st).state ∧
     (createTaxedToken nm rr st).state.logs.length ≤ 20) ∧
    ((createPayerAta ar sr cr { st with logs := l2 }).outcome = (createPayerAta ar sr cr st).outcome ∧
     (createPayerAta ar sr cr { st with logs := l2 }).effects = (createPayerAta ar sr cr st).effects ∧
     tracked (createPayerAta ar sr cr { st with logs := l2 }).state = tracked (createPayerAta ar sr cr st).state ∧
     (createPayerAta ar sr cr st).state.logs.length ≤ 20) ∧
    ((mintToPayer aa sr cr { st with logs := l2 }).outcome = (mintToPayer aa sr cr st).outcome ∧
     (mintToPayer aa sr cr { st with logs := l2 }).effects = (mintToPayer aa sr cr st).effects ∧
     tracked (mintToPayer aa sr cr { st with logs := l2 }).state = tracked (mintToPayer aa sr cr st).state ∧
     (mintToPayer aa sr cr st).state.logs.length ≤ 20) ∧
    ((transferWithFee v am pk sr cr { st with logs := l2 }).outcome = (transferWithFee v am pk sr cr st).outcome ∧
     (transferWithFee v am pk sr cr { st with logs := l2 }).effects = (transferWithFee v am pk sr cr st).effects ∧
     tracked (transferWithFee v am pk sr cr { st with logs := l2 }).state = tracked (transferWithFee v am pk sr cr st).state ∧
     (transferWithFee v am pk sr cr st).state.logs.length ≤ 20) ∧
    ((withdrawWithheld v pk sr cr { st with logs := l2 }).outcome = (withdrawWithheld v pk sr cr st).outcome ∧
     (withdrawWithheld v pk sr cr { st with logs := l2 }).effects = (withdrawWithheld v pk sr cr st).effects ∧
     tracked (withdrawWithheld v pk sr cr { st with logs := l2 }).state = tracked (withdrawWithheld v pk sr cr st).state ∧
     (withdrawWithheld v pk sr cr st).state.logs.length ≤ 20) ∧
    ((refreshPayerBalance qr { st with logs := l2 }).outcome = (refreshPayerBalance qr st).outcome ∧
     (refreshPayerBalance qr { st with logs := l2 }).effects = (refreshPayerBalance qr st).effects ∧
     tracked (refreshPayerBalance qr { st with logs := l2 }).state = tracked (refreshPayerBalance qr st).state ∧
     (refreshPayerBalance qr st).state.logs.length ≤ 20) :=
  ⟨pushLog_length_le s l, createTaxedToken_logs nm rr st l2,
   createPayerAta_logs ar sr cr st l2, mintToPayer_logs aa sr cr st l2,
   transferWithFee_logs v am pk sr cr st l2, withdrawWithheld_logs v pk sr cr st l2,
   refreshPayerBalance_logs qr st l2⟩

end Launchpad
